import Mathlib

/-!
Shallow embedding of the grading pipeline of `grader_langgraph.py`
(C-Autograder).  External events — the gcc invocation, each spawned
run of the compiled binary, the LLM reporter call — are modelled as
explicit behaviour values fed to the embedded functions; everything
the Python code computes from those events is translated directly.
Python floats are modelled as exact rationals, Python dict keys that
may be missing as `Option` fields.
-/

/-- Boolean test that `pat` is a leading segment of `l`
(helper for modelling Python substring operations). -/
def charsLead : List Char → List Char → Bool
  | [], _ => true
  | _ :: _, [] => false
  | a :: as, b :: bs => a == b && charsLead as bs

/-- Models Python's `pat in s` substring test, on `List Char`. -/
def charsContain (pat : List Char) : List Char → Bool
  | [] => pat.isEmpty
  | b :: bs => charsLead pat (b :: bs) || charsContain pat bs

/-- Models Python's `pat in s` substring test on `String`. -/
def strContainsB (s pat : String) : Bool :=
  charsContain pat.toList s.toList

/-- Models Python's `s.split(pat, 1)` (split at the first occurrence),
on `List Char`; meaningful when `pat` occurs in the list. -/
def charsSplitFirst (pat : List Char) : List Char → List Char × List Char
  | [] => ([], [])
  | b :: bs =>
    if charsLead pat (b :: bs) then ([], (b :: bs).drop pat.length)
    else
      let p := charsSplitFirst pat bs
      (b :: p.1, p.2)

/-- Models Python's `t.split(pat, 1)` on `String`. -/
def pySplitOnce (t pat : String) : String × String :=
  let p := charsSplitFirst pat.toList t.toList
  (String.mk p.1, String.mk p.2)

/-- Whitespace characters removed by Python's `str.strip()`. -/
def pyWhitespace (c : Char) : Bool :=
  c == ' ' || c == '\t' || c == '\n' || c == '\r' || c == '\x0b' || c == '\x0c'

/-- Models Python's `s.strip()` (outer whitespace trim). -/
def pyStrip (s : String) : String :=
  String.mk (((s.toList.dropWhile pyWhitespace).reverse.dropWhile pyWhitespace).reverse)

/-- Floor of a rational as an integer, by floored integer division. -/
def ratFloorI (x : ℚ) : ℤ := Int.fdiv x.num (x.den : ℤ)

/-- Round to the nearest integer, ties to even — the rounding Python's
built-in `round` uses. -/
def roundHalfEven (x : ℚ) : ℤ :=
  let f := ratFloorI x
  let r := x - (f : ℚ)
  if r < 1 / 2 then f
  else if 1 / 2 < r then f + 1
  else if f % 2 == 0 then f else f + 1

/-- Models Python's `round(x, 2)` on the exact rationals of this development. -/
def round2 (x : ℚ) : ℚ := ((roundHalfEven (x * 100) : ℤ) : ℚ) / 100

/-- Models Python's truth test `not s` for an optional string:
`None` and the empty string are falsy. -/
def pyFalsyStr : Option String → Bool
  | none => true
  | some s => s == ""

/-- The dict returned by `run_binary_with_input`. -/
structure ExecResult where
  stdout : String
  stderr : String
  returncode : Option Int
  time : Option ℚ
deriving DecidableEq, Repr

/-- What the operating system does on one `subprocess.run` of the binary:
it completes with outputs, exit code and elapsed wall time, or it exceeds
the timeout, or `subprocess.run` raises some other exception. -/
inductive ProcBehavior where
  | completed (stdout stderr : String) (rc : Int) (elapsed : ℚ)
  | timedOut
  | raised (msg : String)
deriving DecidableEq, Repr

/-- Embedding of `run_binary_with_input` (grader_langgraph.py:93).
`binOk` models `os.path.exists(bin_path) and os.access(bin_path, X_OK)`. -/
def run_binary_with_input (binOk : Bool) (timeout_seconds : ℕ)
    (beh : ProcBehavior) : ExecResult :=
  if !binOk then
    { stdout := "", stderr := "Binary not found or not executable.",
      returncode := none, time := none }
  else
    match beh with
    | .completed out err rc elapsed =>
        { stdout := out, stderr := err, returncode := some rc, time := some elapsed }
    | .timedOut =>
        { stdout := "",
          stderr := "Execution timed out after " ++ toString timeout_seconds ++ "s.",
          returncode := some (-1), time := some (timeout_seconds : ℚ) }
    | .raised msg =>
        { stdout := "", stderr := msg, returncode := some (-1), time := none }

/-- The dict returned by `compile_c_code`. -/
structure CompileInfo where
  status : String
  binary_path : Option String
  stdout : String
  stderr : String
  returncode : Option Int
deriving DecidableEq, Repr

/-- What happens during `compile_c_code`: gcc runs (possibly creating the
binary), gcc exceeds its timeout, or the file write / process spawn raises. -/
inductive CompileBehavior where
  | gccRuns (stdout stderr : String) (rc : Int) (binCreated : Bool)
  | gccTimeout
  | raised (msg : String)
deriving DecidableEq, Repr

/-- Embedding of `compile_c_code` (grader_langgraph.py:49): the scratch
directory `tmpdir` is created by `tempfile.mkdtemp` and the binary path is
`tmpdir/submission_bin`; the function itself never deletes the directory. -/
def compile_c_code (tmpdir : String) (timeout_seconds : ℕ)
    (beh : CompileBehavior) : CompileInfo :=
  let bin_path := tmpdir ++ "/submission_bin"
  match beh with
  | .gccRuns out err rc binCreated =>
      if rc == 0 && binCreated then
        { status := "success", binary_path := some bin_path,
          stdout := out, stderr := err, returncode := some rc }
      else
        { status := "error", binary_path := none,
          stdout := out, stderr := err, returncode := some rc }
  | .gccTimeout =>
      { status := "error", binary_path := none, stdout := "",
        stderr := "Compilation timed out after " ++ toString timeout_seconds ++ "s.",
        returncode := some (-1) }
  | .raised msg =>
      { status := "error", binary_path := none, stdout := "",
        stderr := msg, returncode := none }

/-- One entry of the `results` list built by `test_agent`. -/
structure Outcome where
  input : String
  expected : String
  output : String
  pass : Option Bool
  meta : ExecResult
deriving DecidableEq, Repr

/-- The per-line parse at the head of `test_agent`'s loop
(grader_langgraph.py:171-176): split on the first `::`, else on the
first `->`, else the whole line is input with empty expected. -/
def parseTestLine (t : String) : String × String :=
  if strContainsB t "::" then pySplitOnce t "::"
  else if strContainsB t "->" then pySplitOnce t "->"
  else (t, "")

/-- The body of `test_agent`'s loop (grader_langgraph.py:169-193):
parse the line, strip both parts, run the binary (per-test timeout 2s),
strip stdout, and judge: no expected output means `pass = None`,
otherwise `pass` is the equality of stripped stdout and expected. -/
def judgeTest (binOk : Bool) (beh : ProcBehavior) (t : String) : Outcome :=
  let parts := parseTestLine t
  let input_str := pyStrip parts.1
  let expected_str := pyStrip parts.2
  let exec_res := run_binary_with_input binOk 2 beh
  let out := pyStrip exec_res.stdout
  if expected_str == "" then
    { input := input_str, expected := expected_str, output := out,
      pass := none, meta := exec_res }
  else
    { input := input_str, expected := expected_str, output := out,
      pass := some (out == expected_str), meta := exec_res }

/-- The loop of `test_agent`, recorded in input order; the `i`-th test's
process behaviour is `beh i` (each spawn is an independent event). -/
def runTests (binOk : Bool) (beh : ℕ → ProcBehavior) : ℕ → List String → List Outcome
  | _, [] => []
  | i, t :: rest => judgeTest binOk (beh i) t :: runTests binOk beh (i + 1) rest

/-- The dict stored under the state key `test`; the skipped branch of
`test_agent` omits `passed`/`total`/`score` (modelled as `none`) and the
done branch omits `reason`. -/
structure TestInfo where
  status : String
  reason : Option String
  results : List Outcome
  passed : Option Nat
  total : Option Nat
  score : Option ℚ
deriving DecidableEq, Repr

/-- Models `(state.compile or \x7b\x7d).get("status")`. -/
def compileStatusOf : Option CompileInfo → Option String
  | none => none
  | some c => some c.status

/-- Models `(state.compile or \x7b\x7d).get("binary_path")`. -/
def compileBinOf : Option CompileInfo → Option String
  | none => none
  | some c => c.binary_path

/-- The guard of `test_agent` (grader_langgraph.py:162):
`compile_info.get("status") != "success" or not compile_info.get("binary_path")`. -/
def testSkipGuard (ci : Option CompileInfo) : Bool :=
  !(compileStatusOf ci == some "success") || pyFalsyStr (compileBinOf ci)

/-- Embedding of `test_agent` (grader_langgraph.py:154). -/
def test_agent (binOk : Bool) (beh : ℕ → ProcBehavior)
    (ci : Option CompileInfo) (tests : List String) : TestInfo :=
  if testSkipGuard ci then
    { status := "skipped", reason := some "Compilation failed or binary missing",
      results := [], passed := none, total := none, score := none }
  else
    let results := runTests binOk beh 0 tests
    let passed := (results.filter fun o => o.pass == some true).length
    let total := tests.length
    { status := "done", reason := none, results := results,
      passed := some passed, total := some total,
      score := if 0 < total then some (round2 ((passed : ℚ) / (total : ℚ) * 100)) else none }

/-- The dict returned by `performance_agent`. -/
structure PerfInfo where
  average_time : Option ℚ
  any_timeouts : Bool
deriving DecidableEq, Repr

/-- Models `(state.test or \x7b\x7d).get("results", [])`. -/
def resultsOfTest : Option TestInfo → List Outcome
  | none => []
  | some ti => ti.results

/-- The loop of `performance_agent` (grader_langgraph.py:210-216):
accumulate each recorded `meta["time"]` and OR in whether any result's
meta shows returncode -1 with "timed out" in its stderr. -/
def perfLoop : List Outcome → List ℚ → Bool → List ℚ × Bool
  | [], times, timed_out => (times, timed_out)
  | r :: rest, times, timed_out =>
      let times' := match r.meta.time with
        | some t => times ++ [t]
        | none => times
      let timed' := timed_out ||
        (r.meta.returncode == some (-1) && strContainsB r.meta.stderr "timed out")
      perfLoop rest times' timed'

/-- Embedding of `performance_agent` (grader_langgraph.py:201): averages
the recorded per-test times (it spawns no process of its own). -/
def performance_agent (testI : Option TestInfo) : PerfInfo :=
  let results := resultsOfTest testI
  let p := perfLoop results [] false
  let times := p.1
  { average_time :=
      if times.isEmpty then none else some (times.sum / (times.length : ℚ)),
    any_timeouts := p.2 }

/-- The dict returned by `static_agent`. -/
structure StaticInfo where
  issues : List String
  lines : Nat
deriving DecidableEq, Repr

/-- Models Python's `len(s.splitlines())`. -/
def pySplitlinesCount (s : String) : Nat :=
  if s == "" then 0
  else
    let parts := s.split (fun c => c == '\n')
    if parts.getLast? == some "" then parts.length - 1 else parts.length

/-- Embedding of `static_agent` (grader_langgraph.py:135): fixed substring
checks over the raw source plus a line count. -/
def static_agent (code : String) : StaticInfo :=
  let issues :=
    (if strContainsB code "system(" then
      ["Use of system(...) detected — disallowed in grading environment."] else []) ++
    (if strContainsB code "gets(" then
      ["Use of gets(...) detected — unsafe function."] else []) ++
    (if strContainsB code "main(" then []
     else ["No main() found; program may not be runnable."])
  { issues := issues, lines := pySplitlinesCount code }

/-- The Pydantic `GraderState` (grader_langgraph.py:29); `messages` entries
are (type, content) pairs. -/
structure GraderState where
  code : String
  tests : List String
  compile : Option CompileInfo
  static : Option StaticInfo
  test : Option TestInfo
  perf : Option PerfInfo
  report : Option String
  final_score : Option ℚ
  messages : Option (List (String × String))
deriving DecidableEq, Repr

/-- Outcome of the `llm_reporter(context)` call inside `orchestrate`:
it raises, or it returns a string. -/
inductive ReporterB where
  | raises (msg : String)
  | returns (s : String)
deriving DecidableEq, Repr

/-- Models Python float formatting `str(x)` for the two-decimal scores the
pipeline produces (sign, integer part, trailing zeros dropped, at least one
fractional digit). -/
def floatStr (q : ℚ) : String :=
  let cents : ℤ := roundHalfEven (q * 100)
  let sign := if cents < 0 then "-" else ""
  let a := cents.natAbs
  let ip := a / 100
  let fr := a % 100
  if fr == 0 then sign ++ toString ip ++ ".0"
  else if fr % 10 == 0 then sign ++ toString ip ++ "." ++ toString (fr / 10)
  else sign ++ toString ip ++ "." ++ (if fr < 10 then "0" else "") ++ toString fr

/-- Models Python's `str()` of an optional value. -/
def pyStrOpt (f : α → String) : Option α → String
  | none => "None"
  | some a => f a

/-- Models Python's `str()` of the compile dict. -/
def strOfCompile (c : CompileInfo) : String :=
  "\x7b'status': '" ++ c.status ++ "', 'binary_path': " ++
    (pyStrOpt (fun p => "'" ++ p ++ "'") c.binary_path) ++
    ", 'stdout': '" ++ c.stdout ++ "', 'stderr': '" ++ c.stderr ++
    "', 'returncode': " ++ (pyStrOpt toString c.returncode) ++ "\x7d"

/-- Models Python's `str()` of the static dict. -/
def strOfStatic (s : StaticInfo) : String :=
  "\x7b'issues': [" ++ String.intercalate ", " (s.issues.map (fun i => "'" ++ i ++ "'")) ++
    "], 'lines': " ++ toString s.lines ++ "\x7d"

/-- Models Python's `str()` of one test outcome dict. -/
def strOfOutcome (o : Outcome) : String :=
  "\x7b'input': '" ++ o.input ++ "', 'expected': '" ++ o.expected ++
    "', 'output': '" ++ o.output ++ "', 'pass': " ++
    (match o.pass with
     | none => "None"
     | some true => "True"
     | some false => "False") ++ "\x7d"

/-- Models Python's `str()` of the test dict. -/
def strOfTest (t : TestInfo) : String :=
  "\x7b'status': '" ++ t.status ++ "', 'results': [" ++
    String.intercalate ", " (t.results.map strOfOutcome) ++ "]" ++
    ", 'passed': " ++ pyStrOpt toString t.passed ++
    ", 'total': " ++ pyStrOpt toString t.total ++
    ", 'score': " ++ pyStrOpt floatStr t.score ++ "\x7d"

/-- Models Python's `str()` of the perf dict. -/
def strOfPerf (p : PerfInfo) : String :=
  "\x7b'average_time': " ++ pyStrOpt floatStr p.average_time ++
    ", 'any_timeouts': " ++ (if p.any_timeouts then "True" else "False") ++ "\x7d"

/-- Models `"\n".join(lines)`. -/
def joinLines : List String → String
  | [] => ""
  | [x] => x
  | x :: y :: rest => x ++ "\n" ++ joinLines (y :: rest)

/-- The fallback report built in `orchestrate` (grader_langgraph.py:263-280)
when the reporter produced nothing usable. -/
def fallbackReport (st : GraderState) (computed_score : ℚ) : String :=
  joinLines
    [ "## Automated Grading Report (fallback)",
      "Final score: " ++ floatStr computed_score,
      "",
      "### Compilation",
      pyStrOpt strOfCompile st.compile,
      "",
      "### Static Analysis",
      pyStrOpt strOfStatic st.static,
      "",
      "### Tests",
      pyStrOpt strOfTest st.test,
      "",
      "### Performance",
      pyStrOpt strOfPerf st.perf ]

/-- Models `(state.test or \x7b\x7d).get("score")`. -/
def testScoreOf : Option TestInfo → Option ℚ
  | none => none
  | some ti => ti.score

/-- Models `(state.perf or \x7b\x7d).get("any_timeouts", False)`. -/
def perfTimeoutsOf : Option PerfInfo → Bool
  | none => false
  | some p => p.any_timeouts

/-- The final score computed by `orchestrate` (grader_langgraph.py:231-243):
weighted when a test score exists, else 50/0 on compile success/failure. -/
def orchestrateScore (st : GraderState) : ℚ :=
  let compile_ok : Nat := if compileStatusOf st.compile == some "success" then 1 else 0
  let perf_bonus : ℚ := if !perfTimeoutsOf st.perf then 5 else 0
  match testScoreOf st.test with
  | some s =>
      round2 ((85 / 100 : ℚ) * s +
        (10 / 100 : ℚ) * (if compile_ok == 1 then 100 else 0) +
        (5 / 100 : ℚ) * perf_bonus)
  | none => if compile_ok == 1 then 50 else 0

/-- The dict returned by `orchestrate`. -/
structure OrchOut where
  report : String
  final_score : ℚ
  messages : List (String × String)
deriving DecidableEq, Repr

/-- Embedding of `orchestrate` (grader_langgraph.py:223): compute the final
score, try the reporter (exceptions yield `None`), and substitute the
fallback report when the result is falsy (`None` or `""`). -/
def orchestrate (reporter : Option ReporterB) (st : GraderState) : OrchOut :=
  let computed_score := orchestrateScore st
  let attempted : Option String :=
    match reporter with
    | none => none
    | some (.raises _) => none
    | some (.returns s) => some s
  let report_text : String :=
    match attempted with
    | none => fallbackReport st computed_score
    | some s => if s == "" then fallbackReport st computed_score else s
  { report := report_text, final_score := computed_score,
    messages := [("system", "orchestration complete")] }

/-- The external events one pipeline run is exposed to. -/
structure Env where
  tmpdir : String
  compileB : CompileBehavior
  binOk : Bool
  execB : ℕ → ProcBehavior
  reporter : Option ReporterB

/-- Filesystem effect trace of one pipeline run: directories created and
directories removed. -/
structure PipelineFx where
  createdDirs : List String
  removedDirs : List String
deriving DecidableEq, Repr

/-- Result of `run_grader_pipeline`: the final state dict and the
filesystem effect trace. -/
structure PipelineOut where
  state : GraderState
  fx : PipelineFx

/-- Embedding of `run_grader_pipeline` (grader_langgraph.py:288): the stages
run in sequence (compile with timeout 12s, static, test, perf, orchestrate).
`compile_c_code` creates the scratch directory; no statement on any path of
the function removes it (`shutil` is imported but unused in the module). -/
def run_grader_pipeline (env : Env) (code_text : String) (tests : List String) :
    PipelineOut :=
  let compileI := compile_c_code env.tmpdir 12 env.compileB
  let staticI := static_agent code_text
  let testI := test_agent env.binOk env.execB (some compileI) tests
  let perfI := performance_agent (some testI)
  let preState : GraderState :=
    { code := code_text, tests := tests, compile := some compileI,
      static := some staticI, test := some testI, perf := some perfI,
      report := none, final_score := none, messages := none }
  let orch := orchestrate env.reporter preState
  let finalState : GraderState :=
    { preState with
      report := some orch.report,
      final_score := some orch.final_score,
      messages := some orch.messages }
  { state := finalState,
    fx := { createdDirs := [env.tmpdir], removedDirs := [] } }

/-- A compile dict as produced by a successful `compile_c_code` run. -/
def ciOK : CompileInfo :=
  { status := "success", binary_path := some "/tmp/grader_compile_w/submission_bin",
    stdout := "", stderr := "", returncode := some 0 }

/-- A compile dict as produced by a failed `compile_c_code` run. -/
def ciBad : CompileInfo :=
  compile_c_code "/tmp/grader_compile_w" 12
    (CompileBehavior.gccRuns "" "submission.c: error: expected declaration" 1 false)

/-- Process behaviour where the first spawned run completes printing `5`
and every later run exceeds the timeout. -/
def behMixed : ℕ → ProcBehavior := fun i =>
  if i == 0 then ProcBehavior.completed "5" "" 0 1 else ProcBehavior.timedOut

/-- The test dict for two tests of which the second one times out. -/
def tiMixed : TestInfo := test_agent true behMixed (some ciOK) ["2 3::5", "x::y"]

/-- A pipeline environment whose gcc invocation fails. -/
def envBad : Env :=
  { tmpdir := "/tmp/grader_compile_w",
    compileB := CompileBehavior.gccRuns "" "submission.c: error: expected declaration" 1 false,
    binOk := true, execB := fun _ => ProcBehavior.timedOut, reporter := none }

/-- A state after compile success with no test score recorded. -/
def stBase : GraderState :=
  { code := "int main()\x7b\x7d", tests := [], compile := some ciOK, static := none,
    test := none, perf := none, report := none, final_score := none, messages := none }

/-- Claim C1 counterexample: when compilation failed, the skipped test dict of
`test_agent` carries no `total` key at all — reading it yields `None`,
not the total test count `0` the claim states. -/
theorem C1_counterexample :
    (test_agent true (fun _ => ProcBehavior.timedOut) (some ciBad) ["1", "2"]).total = none ∧
    (test_agent true (fun _ => ProcBehavior.timedOut) (some ciBad) ["1", "2"]).total ≠ some 0 := by
  decide

/-- Claim C1 (amended): for every run whose compilation fails (status not
success, or binary path absent), the test stage runs no tests — its
results list is empty, its output does not depend on the supplied tests —
and its skipped report carries no total count (the field is absent, not
0); the performance stage reports no average time. -/
theorem C1_amended (env : Env) (code : String) (tests tests' : List String)
    (h : (compile_c_code env.tmpdir 12 env.compileB).status ≠ "success" ∨
         (compile_c_code env.tmpdir 12 env.compileB).binary_path = none) :
    (run_grader_pipeline env code tests).state.test =
      some { status := "skipped", reason := some "Compilation failed or binary missing",
             results := [], passed := none, total := none, score := none } ∧
    (run_grader_pipeline env code tests').state.test =
      (run_grader_pipeline env code tests).state.test ∧
    (run_grader_pipeline env code tests).state.perf =
      some { average_time := none, any_timeouts := false } := by
  have hg : testSkipGuard (some (compile_c_code env.tmpdir 12 env.compileB)) = true := by
    rcases h with h | h
    · simp [testSkipGuard, compileStatusOf]
      exact Or.inl h
    · simp [testSkipGuard, compileBinOf, pyFalsyStr, h]
  refine ⟨?_, ?_, ?_⟩ <;>
    simp [run_grader_pipeline, test_agent, hg, performance_agent, resultsOfTest, perfLoop]

/-- Claim C1 witness: the amended statement at a concrete failing compile. -/
theorem C1_witness :
    (run_grader_pipeline envBad "int main(" ["1", "2"]).state.test =
      some { status := "skipped", reason := some "Compilation failed or binary missing",
             results := [], passed := none, total := none, score := none } ∧
    (run_grader_pipeline envBad "int main(" ["3"]).state.test =
      (run_grader_pipeline envBad "int main(" ["1", "2"]).state.test ∧
    (run_grader_pipeline envBad "int main(" ["1", "2"]).state.perf =
      some { average_time := none, any_timeouts := false } :=
  C1_amended envBad "int main(" ["1", "2"] ["3"] (Or.inl (by decide))

/-- Claim C2: the pipeline never removes any directory — in particular the
scratch directory created by `compile_c_code` still exists when
`run_grader_pipeline` returns, for every environment and input. -/
theorem C2_no_cleanup (env : Env) (code_text : String) (tests : List String) :
    (run_grader_pipeline env code_text tests).fx.removedDirs = [] ∧
    env.tmpdir ∈ (run_grader_pipeline env code_text tests).fx.createdDirs := by
  constructor
  · rfl
  · simp [run_grader_pipeline]

theorem pyStrip_empty : pyStrip "" = "" := rfl

/-- Evaluation of the executor on a timed-out run with the test stage's
2-second bound. -/
theorem timeoutRun_eq : run_binary_with_input true 2 ProcBehavior.timedOut =
    { stdout := "", stderr := "Execution timed out after 2s.",
      returncode := some (-1), time := some 2 } := by
  simp [run_binary_with_input]
  decide

/-- The test loop records one outcome per test, positionally: the `i`-th
outcome is the judgment of the `i`-th test under its own process behaviour. -/
theorem runTests_get (binOk : Bool) (beh : ℕ → ProcBehavior) :
    ∀ (tests : List String) (s i : ℕ),
      (runTests binOk beh s tests).get? i =
        (tests.get? i).map (fun t => judgeTest binOk (beh (s + i)) t) := by
  intro tests
  induction tests with
  | nil => intro s i; simp [runTests]
  | cons t rest ih =>
    intro s i
    cases i with
    | zero => simp [runTests]
    | succ j => simpa [runTests, Nat.add_assoc, Nat.add_comm 1 j] using ih (s + 1) j

/-- The test loop never drops or aborts a test: it yields exactly as many
outcomes as tests. -/
theorem runTests_len (binOk : Bool) (beh : ℕ → ProcBehavior) :
    ∀ (tests : List String) (s : ℕ), (runTests binOk beh s tests).length = tests.length := by
  intro tests
  induction tests with
  | nil => intro s; simp [runTests]
  | cons t rest ih => intro s; simp [runTests, ih]

/-- Claim C3 counterexample: a test with an expected output whose run times out
records actual output `""`, not the sentinel `"(timeout)"` the claim states. -/
theorem C3_counterexample :
    (test_agent true (fun _ => ProcBehavior.timedOut) (some ciOK) ["5::hello"]).results.map
      Outcome.output = [""] ∧
    ("" : String) ≠ "(timeout)" := by
  decide

/-- Claim C3 (amended): for every test case whose execution exceeds the per-test
timeout, the recorded outcome's actual output is the empty string; the bound
is explained in the outcome's meta stderr (`"Execution timed out after 2s."`,
with returncode -1 and elapsed time equal to the bound); and `pass` is false
when an expected output is present but `None` (unjudged) when it is absent. -/
theorem C3_amended (t : String) :
    (judgeTest true ProcBehavior.timedOut t).output = "" ∧
    (judgeTest true ProcBehavior.timedOut t).meta.stderr = "Execution timed out after 2s." ∧
    (judgeTest true ProcBehavior.timedOut t).meta.returncode = some (-1) ∧
    (judgeTest true ProcBehavior.timedOut t).meta.time = some 2 ∧
    (judgeTest true ProcBehavior.timedOut t).pass =
      (if pyStrip (parseTestLine t).2 == "" then none else some false) := by
  by_cases h : (pyStrip (parseTestLine t).2 == "") = true
  · simp [judgeTest, timeoutRun_eq, h, pyStrip_empty]
  · have h' : pyStrip (parseTestLine t).2 ≠ "" := by
      simpa [beq_iff_eq] using h
    simp only [Bool.not_eq_true] at h
    simp [judgeTest, timeoutRun_eq, h, pyStrip_empty]
    exact fun he => h' he.symm

/-- Claim C4: when compilation succeeded, the test stage attempts every supplied
test in order — it is total (no exception escapes the embedded function),
produces exactly one outcome per test, and the `i`-th outcome is the judgment
of the `i`-th test under that test's own process behaviour (so no test's
timeout or failure affects any other). -/
theorem C4_all_tests_attempted (binOk : Bool) (beh : ℕ → ProcBehavior)
    (ci : Option CompileInfo) (tests : List String)
    (h1 : compileStatusOf ci = some "success")
    (h2 : pyFalsyStr (compileBinOf ci) = false) :
    (test_agent binOk beh ci tests).status = "done" ∧
    (test_agent binOk beh ci tests).results.length = tests.length ∧
    ∀ i : ℕ, (test_agent binOk beh ci tests).results.get? i =
      (tests.get? i).map (fun t => judgeTest binOk (beh i) t) := by
  have hg : testSkipGuard ci = false := by
    simp [testSkipGuard, h1, h2]
  refine ⟨by simp [test_agent, hg], by simp [test_agent, hg, runTests_len], ?_⟩
  intro i
  simp only [test_agent, hg, Bool.false_eq_true, if_false]
  simpa using runTests_get binOk beh tests 0 i

/-- Claim C4 witness: the attempted-in-order statement at a concrete run where
the second test times out. -/
theorem C4_witness :
    (test_agent true behMixed (some ciOK) ["2 3::5", "x::y"]).status = "done" ∧
    (test_agent true behMixed (some ciOK) ["2 3::5", "x::y"]).results.length =
      (["2 3::5", "x::y"] : List String).length ∧
    ∀ i : ℕ, (test_agent true behMixed (some ciOK) ["2 3::5", "x::y"]).results.get? i =
      ((["2 3::5", "x::y"] : List String).get? i).map
        (fun t => judgeTest true (behMixed i) t) :=
  C4_all_tests_attempted true behMixed (some ciOK) ["2 3::5", "x::y"]
    (by decide) (by decide)

/-- Claim C5 counterexample: a test with no expected output that exits normally
with status 0 is recorded with `pass = None` — left unjudged, not judged
true by its exit code as the claim states (and the same for exit status 1). -/
theorem C5_counterexample :
    (test_agent true (fun _ => ProcBehavior.completed "" "" 0 1) (some ciOK)
        ["hello"]).results.map Outcome.pass = [none] ∧
    (test_agent true (fun _ => ProcBehavior.completed "" "" 1 1) (some ciOK)
        ["hello"]).results.map Outcome.pass = [none] ∧
    (none : Option Bool) ≠ some true := by
  decide

/-- Claim C5 (amended): for every test case with no expected output, the recorded
outcome's `pass` field is `None` — the test is left unjudged regardless of the
process's exit status, never counted as passed or failed. -/
theorem C5_amended (binOk : Bool) (beh : ProcBehavior) (t : String)
    (h : pyStrip (parseTestLine t).2 = "") :
    (judgeTest binOk beh t).pass = none := by
  simp [judgeTest, h]

/-- Claim C5 witness: the amended statement at a concrete delimiter-free test. -/
theorem C5_witness :
    (judgeTest true (ProcBehavior.completed "" "" 0 1) "hello").pass = none :=
  C5_amended true (ProcBehavior.completed "" "" 0 1) "hello" (by decide)

theorem toList_mk (l : List Char) : (String.mk l).toList = l := rfl

theorem charsLead_self_append (pat x : List Char) : charsLead pat (pat ++ x) = true := by
  induction pat with
  | nil => simp [charsLead]
  | cons a as ih => simp [charsLead, ih]

theorem eq_append_of_charsLead (pat : List Char) :
    ∀ l, charsLead pat l = true → l = pat ++ l.drop pat.length := by
  induction pat with
  | nil => intro l h; simp
  | cons a as ih =>
    intro l h
    cases l with
    | nil => simp [charsLead] at h
    | cons b bs =>
      simp only [charsLead, Bool.and_eq_true, beq_iff_eq] at h
      obtain ⟨hab, hlead⟩ := h
      subst hab
      have := ih bs hlead
      simpa [List.drop] using congrArg (a :: ·) this

/-- The split function really is a split: the two parts with the pattern in
between reassemble to the original list. -/
theorem charsSplitFirst_reconstruct (pat : List Char) (hne : pat ≠ []) :
    ∀ l, charsContain pat l = true →
      l = (charsSplitFirst pat l).1 ++ pat ++ (charsSplitFirst pat l).2 := by
  intro l
  induction l with
  | nil =>
    intro h
    simp [charsContain, List.isEmpty_iff] at h
    exact absurd h hne
  | cons b bs ih =>
    intro h
    by_cases hl : charsLead pat (b :: bs) = true
    · simpa [charsSplitFirst, hl] using eq_append_of_charsLead pat (b :: bs) hl
    · have h' : charsContain pat bs = true := by
        simp [charsContain, hl] at h
        exact h
      have := ih h'
      simp [charsSplitFirst, hl]
      conv_lhs => rw [this]
      simp [List.append_assoc]

/-- The split function splits at the first occurrence: the part before the
pattern is no longer than the prefix of any other decomposition. -/
theorem charsSplitFirst_minimal (pat : List Char) :
    ∀ (a l b : List Char), l = a ++ pat ++ b → (charsSplitFirst pat l).1.length ≤ a.length := by
  intro a
  induction a with
  | nil =>
    intro l b hl
    have hlead : charsLead pat l = true := by
      subst hl
      simpa using charsLead_self_append pat b
    cases l with
    | nil =>
      simp [charsSplitFirst]
    | cons c cs =>
      simp [charsSplitFirst, hlead]
  | cons c a' ih =>
    intro l b hl
    subst hl
    by_cases hlead : charsLead pat (c :: (a' ++ pat ++ b)) = true
    · simp only [List.cons_append, List.append_assoc] at *
      simp [charsSplitFirst, hlead]
    · simp only [List.cons_append, List.append_assoc] at *
      simp [charsSplitFirst, hlead]
      exact ih (a' ++ (pat ++ b)) b rfl

/-- Claim C6 counterexample: the line `"a->b"` contains no `::`, yet the parser
does not treat it as input-only — it splits at `->`, contradicting the claim
that every line without `::` is kept whole with expected absent. -/
theorem C6_counterexample :
    parseTestLine "a->b" = ("a", "b") ∧ ("a", "b") ≠ (("a->b" : String), ("" : String)) := by
  decide

/-- Claim C6 (amended): a line containing `::` is split into exactly two parts at
the first occurrence (the pieces reassemble to the line, and no decomposition
has a shorter prefix); a line without `::` but with `->` is likewise split at
the first `->`; a line with neither delimiter is kept whole with expected
absent (empty). -/
theorem C6_amended (t : String) :
    (strContainsB t "::" = true →
      (parseTestLine t).1.toList ++ "::".toList ++ (parseTestLine t).2.toList = t.toList ∧
      ∀ a b : List Char, t.toList = a ++ "::".toList ++ b →
        (parseTestLine t).1.toList.length ≤ a.length) ∧
    (strContainsB t "::" = false → strContainsB t "->" = true →
      (parseTestLine t).1.toList ++ "->".toList ++ (parseTestLine t).2.toList = t.toList ∧
      ∀ a b : List Char, t.toList = a ++ "->".toList ++ b →
        (parseTestLine t).1.toList.length ≤ a.length) ∧
    (strContainsB t "::" = false → strContainsB t "->" = false →
      parseTestLine t = (t, "")) := by
  refine ⟨?_, ?_, ?_⟩
  · intro h
    have hne : ("::".toList : List Char) ≠ [] := by decide
    constructor
    · have hr := charsSplitFirst_reconstruct "::".toList hne t.toList h
      simpa [parseTestLine, h, pySplitOnce, toList_mk] using hr.symm
    · intro a b hab
      have := charsSplitFirst_minimal "::".toList a t.toList b hab
      simpa [parseTestLine, h, pySplitOnce, toList_mk] using this
  · intro h0 h1
    have hne : ("->".toList : List Char) ≠ [] := by decide
    constructor
    · have hr := charsSplitFirst_reconstruct "->".toList hne t.toList h1
      simpa [parseTestLine, h0, h1, pySplitOnce, toList_mk] using hr.symm
    · intro a b hab
      have := charsSplitFirst_minimal "->".toList a t.toList b hab
      simpa [parseTestLine, h0, h1, pySplitOnce, toList_mk] using this
  · intro h0 h1
    simp [parseTestLine, h0, h1]

/-- Claim C6 witness: the first-occurrence split at `"a::b::c"`, which parses to
input `"a"` and expected `"b::c"`. -/
theorem C6_witness :
    ((parseTestLine "a::b::c").1.toList ++ "::".toList ++ (parseTestLine "a::b::c").2.toList =
        "a::b::c".toList ∧
      ∀ a b : List Char, "a::b::c".toList = a ++ "::".toList ++ b →
        (parseTestLine "a::b::c").1.toList.length ≤ a.length) ∧
    parseTestLine "a::b::c" = ("a", "b::c") :=
  ⟨(C6_amended "a::b::c").1 (by decide), by decide⟩

/-- Claim C7 counterexample: with compile success and zero tests the test report
records `total = 0` but its score is `None` (the key is set to Python `None`),
not the `0` the claim states. -/
theorem C7_counterexample :
    (test_agent true (fun _ => ProcBehavior.timedOut) (some ciOK) []).total = some 0 ∧
    (test_agent true (fun _ => ProcBehavior.timedOut) (some ciOK) []).score = none ∧
    (none : Option ℚ) ≠ some 0 := by
  decide

/-- Claim C7 (amended): for every test report produced with compile success, the
score equals `round(100 * passed / total, 2)` over the reported counts when
the total is positive, and is absent (`None`), not 0, when no tests were
supplied. -/
theorem C7_amended (binOk : Bool) (beh : ℕ → ProcBehavior)
    (ci : Option CompileInfo) (tests : List String)
    (h1 : compileStatusOf ci = some "success")
    (h2 : pyFalsyStr (compileBinOf ci) = false) :
    ∃ p : ℕ, (test_agent binOk beh ci tests).passed = some p ∧
      (test_agent binOk beh ci tests).total = some tests.length ∧
      (tests = [] → (test_agent binOk beh ci tests).score = none) ∧
      (tests ≠ [] → (test_agent binOk beh ci tests).score =
        some (round2 ((p : ℚ) / (tests.length : ℚ) * 100))) := by
  have hg : testSkipGuard ci = false := by
    simp [testSkipGuard, h1, h2]
  refine ⟨((runTests binOk beh 0 tests).filter (fun o => o.pass == some true)).length,
    ?_, ?_, ?_, ?_⟩
  · simp [test_agent, hg]
  · simp [test_agent, hg]
  · intro ht; subst ht; simp [test_agent, hg, runTests]
  · intro ht
    have hlen : 0 < tests.length := List.length_pos.mpr ht
    simp [test_agent, hg, hlen]

/-- Claim C7 witness: the amended statement at a concrete two-test run with one
passing test. -/
theorem C7_witness :
    (∃ p : ℕ, (test_agent true behMixed (some ciOK) ["2 3::5", "x::y"]).passed = some p ∧
      (test_agent true behMixed (some ciOK) ["2 3::5", "x::y"]).total =
        some (["2 3::5", "x::y"] : List String).length ∧
      ((["2 3::5", "x::y"] : List String) = [] →
        (test_agent true behMixed (some ciOK) ["2 3::5", "x::y"]).score = none) ∧
      ((["2 3::5", "x::y"] : List String) ≠ [] →
        (test_agent true behMixed (some ciOK) ["2 3::5", "x::y"]).score =
          some (round2 ((p : ℚ) / ((["2 3::5", "x::y"] : List String).length : ℚ) * 100)))) ∧
    (test_agent true behMixed (some ciOK) ["2 3::5", "x::y"]).passed = some 1 :=
  ⟨C7_amended true behMixed (some ciOK) ["2 3::5", "x::y"] (by decide) (by decide),
   by decide⟩

/-- The perf loop accumulates exactly the recorded times (in order) and ORs
together the per-result timeout tests. -/
theorem perfLoop_spec : ∀ (rs : List Outcome) (ts : List ℚ) (f : Bool),
    perfLoop rs ts f =
      (ts ++ rs.filterMap (fun r => r.meta.time),
       f || rs.any (fun r => r.meta.returncode == some (-1) &&
         strContainsB r.meta.stderr "timed out")) := by
  intro rs
  induction rs with
  | nil => intro ts f; simp [perfLoop]
  | cons r rest ih =>
    intro ts f
    cases htime : r.meta.time with
    | none => simp [perfLoop, htime, ih, List.filterMap_cons, Bool.or_assoc]
    | some t => simp [perfLoop, htime, ih, List.filterMap_cons, Bool.or_assoc, List.append_assoc]

/-- Claim C8 counterexample: for a run where one of two tests timed out, the
performance stage still reports an average (over the test stage's recorded
times, the timed-out sample included) instead of the "unavailable" the claim
requires, and it spawns no runs of its own. -/
theorem C8_counterexample :
    (performance_agent (some tiMixed)).any_timeouts = true ∧
    (performance_agent (some tiMixed)).average_time ≠ none := by
  decide

/-- Claim C8 (amended): the performance stage invokes the artifact no further
times; its reported average is the arithmetic mean of all elapsed times the
test stage recorded (timed-out runs included, contributing the timeout bound),
absent only when no time was recorded, and it separately flags whether any
run timed out. -/
theorem C8_amended (testI : Option TestInfo) :
    (performance_agent testI).average_time =
      (if (resultsOfTest testI).filterMap (fun r => r.meta.time) = [] then none
       else some (((resultsOfTest testI).filterMap (fun r => r.meta.time)).sum /
         (((resultsOfTest testI).filterMap (fun r => r.meta.time)).length : ℚ))) ∧
    (performance_agent testI).any_timeouts =
      (resultsOfTest testI).any (fun r => r.meta.returncode == some (-1) &&
        strContainsB r.meta.stderr "timed out") := by
  constructor
  · simp [performance_agent, perfLoop_spec, List.isEmpty_iff]
  · simp [performance_agent, perfLoop_spec]

theorem strAppend_ne_empty (a b : String) (h : a.data ≠ []) : a ++ b ≠ "" := by
  intro he
  apply h
  have hd := congrArg String.data he
  rw [String.data_append] at hd
  exact (List.append_eq_nil.mp hd).1

/-- Claim C9: whenever the reporter raises or returns the empty string, the
pipeline still produces the deterministic fallback report, which is non-empty
and contains the final score (`"Final score: <score>"` right after its
header line). -/
theorem C9_fallback (st : GraderState) (reporter : Option ReporterB)
    (h : (∃ m, reporter = some (ReporterB.raises m)) ∨ reporter = some (ReporterB.returns "")) :
    (orchestrate reporter st).report ≠ "" ∧
    ∃ rest : String, (orchestrate reporter st).report =
      "## Automated Grading Report (fallback)" ++ "\n" ++ "Final score: " ++
        floatStr (orchestrate reporter st).final_score ++ rest := by
  have hr : (orchestrate reporter st).report = fallbackReport st (orchestrateScore st) := by
    rcases h with ⟨m, hm⟩ | hm <;> subst hm <;> simp [orchestrate]
  have hf : (orchestrate reporter st).final_score = orchestrateScore st := by
    simp [orchestrate]
  have h1 : fallbackReport st (orchestrateScore st) =
      "## Automated Grading Report (fallback)" ++ "\n" ++
        (("Final score: " ++ floatStr (orchestrateScore st)) ++ "\n" ++
          joinLines ["", "### Compilation", pyStrOpt strOfCompile st.compile,
            "", "### Static Analysis", pyStrOpt strOfStatic st.static,
            "", "### Tests", pyStrOpt strOfTest st.test,
            "", "### Performance", pyStrOpt strOfPerf st.perf]) := rfl
  constructor
  · rw [hr, h1]
    exact strAppend_ne_empty _ _ (by decide)
  · refine ⟨"\n" ++ joinLines ["", "### Compilation", pyStrOpt strOfCompile st.compile,
      "", "### Static Analysis", pyStrOpt strOfStatic st.static,
      "", "### Tests", pyStrOpt strOfTest st.test,
      "", "### Performance", pyStrOpt strOfPerf st.perf], ?_⟩
    rw [hr, hf, h1]
    simp only [String.append_assoc]

/-- Claim C9 witness: the fallback guarantee at a concrete state with a raising
reporter. -/
theorem C9_witness :
    (orchestrate (some (ReporterB.raises "quota")) stBase).report ≠ "" ∧
    ∃ rest : String, (orchestrate (some (ReporterB.raises "quota")) stBase).report =
      "## Automated Grading Report (fallback)" ++ "\n" ++ "Final score: " ++
        floatStr (orchestrate (some (ReporterB.raises "quota")) stBase).final_score ++ rest :=
  C9_fallback stBase (some (ReporterB.raises "quota")) (Or.inl ⟨"quota", rfl⟩)

/-- Claim C10: whenever no numeric test score exists, the final score is exactly
50 on compile success and exactly 0 on compile failure, and replacing the
static-analysis and performance results (and the reporter) changes nothing. -/
theorem C10_fallback_score (reporter reporter' : Option ReporterB) (st : GraderState)
    (static' : Option StaticInfo) (perf' : Option PerfInfo)
    (h : testScoreOf st.test = none) :
    (orchestrate reporter st).final_score =
      (if compileStatusOf st.compile = some "success" then (50 : ℚ) else 0) ∧
    (orchestrate reporter' { st with static := static', perf := perf' }).final_score =
      (orchestrate reporter st).final_score := by
  constructor
  · by_cases hc : compileStatusOf st.compile = some "success" <;>
      simp [orchestrate, orchestrateScore, h, hc]
  · by_cases hc : compileStatusOf st.compile = some "success" <;>
      simp [orchestrate, orchestrateScore, h, hc]

/-- Claim C10 witness: the 50-point fallback at a concrete compiled state with
no test score, with static findings and a timed-out perf summary swapped in. -/
theorem C10_witness :
    (orchestrate none stBase).final_score =
      (if compileStatusOf stBase.compile = some "success" then (50 : ℚ) else 0) ∧
    (orchestrate (some (ReporterB.returns "ok"))
        { stBase with static := some (static_agent "int main()\x7b\x7d"),
                      perf := some { average_time := none, any_timeouts := true } }).final_score =
      (orchestrate none stBase).final_score :=
  C10_fallback_score none (some (ReporterB.returns "ok")) stBase
    (some (static_agent "int main()\x7b\x7d"))
    (some { average_time := none, any_timeouts := true }) (by decide)
